import Mathlib

/-!
Shallow embedding of the exercise rep-counting core of the
AI-nutritionist frontend: the geometry-fed exercise state machines
(`src/utils/workoutUtils.js`, provided as `src/unnamed/part_004`) and the
frame/session orchestration in `src/components/WorkoutTracker.js`.

Modelling conventions:
* JavaScript numbers carrying joint angles are modelled as `ℚ` (the code
  only compares them against integer thresholds and averages two of them).
* A possibly-null angle is `Option ℚ`.  JavaScript truthiness of such a
  value (`!angles.knee` and friends) is `jsTruthy`: `null`/`undefined`
  and `0` are falsy, every other number is truthy.
* Feedback messages `{type, text}` are the structure `Msg`.
* `lastRepTime` (written with `Date.now()` and never read by any logic in
  the repository) is omitted from the machine states.
-/

/-- Severity tag of a feedback message (`type` field in the source). -/
inductive MsgType
  | warning
  | error
  | success
deriving DecidableEq, Repr

/-- A feedback message `{type, text}` as pushed onto `feedbackMessages`. -/
structure Msg where
  type : MsgType
  text : String
deriving DecidableEq, Repr

/-- JavaScript truthiness of a nullable number: `null`/`undefined` and `0`
are falsy, any other number is truthy. -/
def jsTruthy : Option ℚ → Bool
  | none => false
  | some x => x != 0

/-- The characters of a string folded to lower case. -/
def lowerChars (s : String) : List Char := s.toList.map Char.toLower

/-- Case-insensitive substring test used to talk about "contains a
'cannot detect' warning": `needle` occurs contiguously inside `haystack`,
ignoring case. -/
def containsCI (needle haystack : String) : Bool :=
  (lowerChars haystack).tails.any fun t => (lowerChars needle).isPrefixOf t

-- ==============================================
-- SQUAT STATE MACHINE  (part_004 lines 77-181)
-- ==============================================

/-- Phases of the squat machine (the `state` strings in the source). -/
inductive SquatPhase
  | standing
  | descending
  | bottom
  | ascending
deriving DecidableEq, Repr

/-- Squat thresholds object (part_004 lines 85-94).  The two form-check
thresholds (`kneeToeRatio`, `torsoLeanAngle`) are consulted only by
`checkSquatForm`, which no machine transition uses; they are omitted. -/
structure SquatThresholds where
  descendKneeAngle : ℚ
  descendHipAngle : ℚ
  bottomKneeAngle : ℚ
  bottomHipAngle : ℚ
  ascendKneeAngle : ℚ
  depthKneeAngle : ℚ
deriving DecidableEq, Repr

/-- Mutable state of `SquatStateMachine` (constructor, lines 78-97). -/
structure SquatStateMachine where
  state : SquatPhase
  repCount : ℕ
  feedbackMessages : List Msg
  minDepthReached : Bool
deriving DecidableEq, Repr

/-- The threshold constants of the squat constructor. -/
def SquatStateMachine.thresholds : SquatThresholds :=
  { descendKneeAngle := 150
    descendHipAngle := 150
    bottomKneeAngle := 110
    bottomHipAngle := 120
    ascendKneeAngle := 150
    depthKneeAngle := 130 }

/-- A freshly constructed `SquatStateMachine`. -/
def SquatStateMachine.init : SquatStateMachine :=
  { state := .standing, repCount := 0, feedbackMessages := [], minDepthReached := false }

/-- The `angles` argument of `SquatStateMachine.update`: the update reads
`knee`, `hip`, `torsoLean` (only `knee` drives transitions; `hip` and
`torsoLean` are destructured and logged, never branched on). -/
structure SquatAngles where
  knee : Option ℚ
  hip : Option ℚ
  torsoLean : Option ℚ
deriving DecidableEq, Repr

/-- `SquatStateMachine.update` (part_004 lines 99-164).  `feedbackMessages`
is cleared first; `!angles.knee` (null or 0) emits the warning and
returns without any transition; otherwise the phase switch runs.  The
`distances` argument is destructured but never used by the transitions. -/
def SquatStateMachine.update (m : SquatStateMachine) (angles : SquatAngles) :
    SquatStateMachine :=
  match angles.knee with
  | none => { m with feedbackMessages := [⟨.warning, "Cannot detect legs"⟩] }
  | some knee =>
    if knee = 0 then
      { m with feedbackMessages := [⟨.warning, "Cannot detect legs"⟩] }
    else
      let m := { m with feedbackMessages := [] }
      match m.state with
      | .standing =>
        if knee < SquatStateMachine.thresholds.descendKneeAngle then
          { m with state := .descending, minDepthReached := false }
        else m
      | .descending =>
        let m :=
          if knee < SquatStateMachine.thresholds.depthKneeAngle then
            { m with minDepthReached := true }
          else m
        if knee < SquatStateMachine.thresholds.bottomKneeAngle then
          { m with state := .bottom }
        else m
      | .bottom =>
        if knee > SquatStateMachine.thresholds.bottomKneeAngle + 15 then
          { m with state := .ascending }
        else m
      | .ascending =>
        if knee > SquatStateMachine.thresholds.ascendKneeAngle then
          if m.minDepthReached then
            { m with repCount := m.repCount + 1
                     feedbackMessages := m.feedbackMessages ++ [⟨.success, "Good rep!"⟩]
                     state := .standing
                     minDepthReached := false }
          else
            { m with feedbackMessages := m.feedbackMessages ++ [⟨.error, "Too shallow"⟩]
                     state := .standing
                     minDepthReached := false }
        else m

/-- `SquatStateMachine.reset` (part_004 lines 176-180): zeroes `repCount`,
returns `state` to `standing`, clears the depth flag.  It does not touch
`feedbackMessages`. -/
def SquatStateMachine.reset (m : SquatStateMachine) : SquatStateMachine :=
  { m with repCount := 0, state := .standing, minDepthReached := false }

/-- Feeding a sequence of per-frame angle snapshots to the squat machine. -/
def SquatStateMachine.run (m : SquatStateMachine) (l : List SquatAngles) :
    SquatStateMachine :=
  l.foldl SquatStateMachine.update m

/-- Angle snapshot whose only present reading is the knee angle. -/
def kneeOnly (q : ℚ) : SquatAngles := ⟨some q, none, none⟩

-- ==============================================
-- BENCH PRESS STATE MACHINE  (part_004 lines 187-244)
-- ==============================================

/-- Phases of the bench press machine. -/
inductive BenchPhase
  | extended
  | descending
  | bottom
  | ascending
deriving DecidableEq, Repr

/-- Mutable state of `BenchPressStateMachine` (constructor, lines 188-199). -/
structure BenchPressStateMachine where
  state : BenchPhase
  repCount : ℕ
  feedbackMessages : List Msg
deriving DecidableEq, Repr

/-- Threshold constants of the bench press constructor. -/
structure BenchThresholds where
  extendedAngle : ℚ
  descendingAngle : ℚ
  bottomAngle : ℚ
  ascendingAngle : ℚ
deriving DecidableEq, Repr

def BenchPressStateMachine.thresholds : BenchThresholds :=
  { extendedAngle := 160, descendingAngle := 120, bottomAngle := 90, ascendingAngle := 120 }

def BenchPressStateMachine.init : BenchPressStateMachine :=
  { state := .extended, repCount := 0, feedbackMessages := [] }

/-- The `angles` argument of the bench press update: only `elbow` is read. -/
structure ElbowAngles where
  elbow : Option ℚ
deriving DecidableEq, Repr

/-- `BenchPressStateMachine.update` (part_004 lines 201-238). -/
def BenchPressStateMachine.update (m : BenchPressStateMachine) (angles : ElbowAngles) :
    BenchPressStateMachine :=
  match angles.elbow with
  | none => { m with feedbackMessages := [⟨.warning, "Cannot detect pose"⟩] }
  | some elbow =>
    if elbow = 0 then
      { m with feedbackMessages := [⟨.warning, "Cannot detect pose"⟩] }
    else
      let m := { m with feedbackMessages := [] }
      match m.state with
      | .extended =>
        if elbow < BenchPressStateMachine.thresholds.descendingAngle then
          { m with state := .descending }
        else m
      | .descending =>
        if elbow < BenchPressStateMachine.thresholds.bottomAngle then
          { m with state := .bottom }
        else m
      | .bottom =>
        if elbow > BenchPressStateMachine.thresholds.bottomAngle + 10 then
          { m with state := .ascending }
        else m
      | .ascending =>
        if elbow > BenchPressStateMachine.thresholds.extendedAngle then
          { m with repCount := m.repCount + 1
                   feedbackMessages := m.feedbackMessages ++ [⟨.success, "Good rep!"⟩]
                   state := .extended }
        else m

/-- `BenchPressStateMachine.reset` (lines 240-243). -/
def BenchPressStateMachine.reset (m : BenchPressStateMachine) : BenchPressStateMachine :=
  { m with repCount := 0, state := .extended }

def BenchPressStateMachine.run (m : BenchPressStateMachine) (l : List ElbowAngles) :
    BenchPressStateMachine :=
  l.foldl BenchPressStateMachine.update m

-- ==============================================
-- DEADLIFT STATE MACHINE  (part_004 lines 250-307)
-- ==============================================

/-- Phases of the deadlift machine. -/
inductive DeadliftPhase
  | standing
  | bending
  | bottom
  | lifting
deriving DecidableEq, Repr

structure DeadliftStateMachine where
  state : DeadliftPhase
  repCount : ℕ
  feedbackMessages : List Msg
deriving DecidableEq, Repr

structure DeadliftThresholds where
  standingHipAngle : ℚ
  bendingHipAngle : ℚ
  bottomHipAngle : ℚ
  liftingHipAngle : ℚ
deriving DecidableEq, Repr

def DeadliftStateMachine.thresholds : DeadliftThresholds :=
  { standingHipAngle := 160, bendingHipAngle := 120, bottomHipAngle := 90, liftingHipAngle := 120 }

def DeadliftStateMachine.init : DeadliftStateMachine :=
  { state := .standing, repCount := 0, feedbackMessages := [] }

/-- The `angles` argument of the deadlift update: only `hip` is read. -/
structure HipAngles where
  hip : Option ℚ
deriving DecidableEq, Repr

/-- `DeadliftStateMachine.update` (part_004 lines 264-301). -/
def DeadliftStateMachine.update (m : DeadliftStateMachine) (angles : HipAngles) :
    DeadliftStateMachine :=
  match angles.hip with
  | none => { m with feedbackMessages := [⟨.warning, "Cannot detect pose"⟩] }
  | some hip =>
    if hip = 0 then
      { m with feedbackMessages := [⟨.warning, "Cannot detect pose"⟩] }
    else
      let m := { m with feedbackMessages := [] }
      match m.state with
      | .standing =>
        if hip < DeadliftStateMachine.thresholds.bendingHipAngle then
          { m with state := .bending }
        else m
      | .bending =>
        if hip < DeadliftStateMachine.thresholds.bottomHipAngle then
          { m with state := .bottom }
        else m
      | .bottom =>
        if hip > DeadliftStateMachine.thresholds.bottomHipAngle + 10 then
          { m with state := .lifting }
        else m
      | .lifting =>
        if hip > DeadliftStateMachine.thresholds.standingHipAngle then
          { m with repCount := m.repCount + 1
                   feedbackMessages := m.feedbackMessages ++ [⟨.success, "Good rep!"⟩]
                   state := .standing }
        else m

def DeadliftStateMachine.reset (m : DeadliftStateMachine) : DeadliftStateMachine :=
  { m with repCount := 0, state := .standing }

def DeadliftStateMachine.run (m : DeadliftStateMachine) (l : List HipAngles) :
    DeadliftStateMachine :=
  l.foldl DeadliftStateMachine.update m

-- ==============================================
-- PUSH-UP STATE MACHINE  (part_004 lines 313-370)
-- ==============================================

/-- Phases of the push-up machine. -/
inductive PushUpPhase
  | up
  | descending
  | bottom
  | ascending
deriving DecidableEq, Repr

structure PushUpStateMachine where
  state : PushUpPhase
  repCount : ℕ
  feedbackMessages : List Msg
deriving DecidableEq, Repr

structure PushUpThresholds where
  upAngle : ℚ
  descendingAngle : ℚ
  bottomAngle : ℚ
  ascendingAngle : ℚ
deriving DecidableEq, Repr

def PushUpStateMachine.thresholds : PushUpThresholds :=
  { upAngle := 160, descendingAngle := 120, bottomAngle := 90, ascendingAngle := 120 }

def PushUpStateMachine.init : PushUpStateMachine :=
  { state := .up, repCount := 0, feedbackMessages := [] }

/-- `PushUpStateMachine.update` (part_004 lines 327-364): only `elbow` is read. -/
def PushUpStateMachine.update (m : PushUpStateMachine) (angles : ElbowAngles) :
    PushUpStateMachine :=
  match angles.elbow with
  | none => { m with feedbackMessages := [⟨.warning, "Cannot detect pose"⟩] }
  | some elbow =>
    if elbow = 0 then
      { m with feedbackMessages := [⟨.warning, "Cannot detect pose"⟩] }
    else
      let m := { m with feedbackMessages := [] }
      match m.state with
      | .up =>
        if elbow < PushUpStateMachine.thresholds.descendingAngle then
          { m with state := .descending }
        else m
      | .descending =>
        if elbow < PushUpStateMachine.thresholds.bottomAngle then
          { m with state := .bottom }
        else m
      | .bottom =>
        if elbow > PushUpStateMachine.thresholds.bottomAngle + 10 then
          { m with state := .ascending }
        else m
      | .ascending =>
        if elbow > PushUpStateMachine.thresholds.upAngle then
          { m with repCount := m.repCount + 1
                   feedbackMessages := m.feedbackMessages ++ [⟨.success, "Good rep!"⟩]
                   state := .up }
        else m

def PushUpStateMachine.reset (m : PushUpStateMachine) : PushUpStateMachine :=
  { m with repCount := 0, state := .up }

def PushUpStateMachine.run (m : PushUpStateMachine) (l : List ElbowAngles) :
    PushUpStateMachine :=
  l.foldl PushUpStateMachine.update m

-- ==============================================
-- PULL-UP STATE MACHINE  (part_004 lines 376-433)
-- ==============================================

/-- Phases of the pull-up machine. -/
inductive PullUpPhase
  | hanging
  | pulling
  | top
  | descending
deriving DecidableEq, Repr

structure PullUpStateMachine where
  state : PullUpPhase
  repCount : ℕ
  feedbackMessages : List Msg
deriving DecidableEq, Repr

structure PullUpThresholds where
  hangingAngle : ℚ
  pullingAngle : ℚ
  topAngle : ℚ
  descendingAngle : ℚ
deriving DecidableEq, Repr

def PullUpStateMachine.thresholds : PullUpThresholds :=
  { hangingAngle := 160, pullingAngle := 120, topAngle := 90, descendingAngle := 120 }

def PullUpStateMachine.init : PullUpStateMachine :=
  { state := .hanging, repCount := 0, feedbackMessages := [] }

/-- `PullUpStateMachine.update` (part_004 lines 390-427): only `elbow` is read. -/
def PullUpStateMachine.update (m : PullUpStateMachine) (angles : ElbowAngles) :
    PullUpStateMachine :=
  match angles.elbow with
  | none => { m with feedbackMessages := [⟨.warning, "Cannot detect pose"⟩] }
  | some elbow =>
    if elbow = 0 then
      { m with feedbackMessages := [⟨.warning, "Cannot detect pose"⟩] }
    else
      let m := { m with feedbackMessages := [] }
      match m.state with
      | .hanging =>
        if elbow < PullUpStateMachine.thresholds.pullingAngle then
          { m with state := .pulling }
        else m
      | .pulling =>
        if elbow < PullUpStateMachine.thresholds.topAngle then
          { m with state := .top }
        else m
      | .top =>
        if elbow > PullUpStateMachine.thresholds.topAngle + 10 then
          { m with state := .descending }
        else m
      | .descending =>
        if elbow > PullUpStateMachine.thresholds.hangingAngle then
          { m with repCount := m.repCount + 1
                   feedbackMessages := m.feedbackMessages ++ [⟨.success, "Good rep!"⟩]
                   state := .hanging }
        else m

def PullUpStateMachine.reset (m : PullUpStateMachine) : PullUpStateMachine :=
  { m with repCount := 0, state := .hanging }

def PullUpStateMachine.run (m : PullUpStateMachine) (l : List ElbowAngles) :
    PullUpStateMachine :=
  l.foldl PullUpStateMachine.update m

-- ==============================================
-- SHOULDER PRESS STATE MACHINE  (part_004 lines 439-510)
-- ==============================================

/-- Phases of the shoulder press machine (two-phase cycle). -/
inductive ShoulderPressPhase
  | down
  | up
deriving DecidableEq, Repr

/-- Mutable state of `ShoulderPressStateMachine` (constructor, lines 440-451). -/
structure ShoulderPressStateMachine where
  state : ShoulderPressPhase
  repCount : ℕ
  feedbackMessages : List Msg
deriving DecidableEq, Repr

structure ShoulderPressThresholds where
  downElbowAngle : ℚ
  upElbowAngle : ℚ
  armBalanceTolerance : ℚ
deriving DecidableEq, Repr

def ShoulderPressStateMachine.thresholds : ShoulderPressThresholds :=
  { downElbowAngle := 100, upElbowAngle := 160, armBalanceTolerance := 20 }

def ShoulderPressStateMachine.init : ShoulderPressStateMachine :=
  { state := .down, repCount := 0, feedbackMessages := [] }

/-- The `angles` argument of the shoulder press update. -/
structure ShoulderPressAngles where
  leftElbow : Option ℚ
  rightElbow : Option ℚ
deriving DecidableEq, Repr

/-- `ShoulderPressStateMachine.update` (part_004 lines 453-504).  The guard
is `!angles.leftElbow && !angles.rightElbow` (both falsy).  `avgElbow` is
the average when both elbows are truthy (with an arm-balance warning when
they differ by more than the tolerance) and `leftElbow || rightElbow`
otherwise.  The `positions` argument only feeds `wristsAboveShoulder`,
a local that the source computes and never reads; it is omitted. -/
def ShoulderPressStateMachine.update (m : ShoulderPressStateMachine)
    (angles : ShoulderPressAngles) : ShoulderPressStateMachine :=
  if !(jsTruthy angles.leftElbow) && !(jsTruthy angles.rightElbow) then
    { m with feedbackMessages := [⟨.warning, "Face camera - ensure arms visible"⟩] }
  else
    let l := angles.leftElbow.getD 0
    let r := angles.rightElbow.getD 0
    let m := { m with feedbackMessages := [] }
    let m :=
      if jsTruthy angles.leftElbow && jsTruthy angles.rightElbow then
        if |l - r| > ShoulderPressStateMachine.thresholds.armBalanceTolerance then
          { m with feedbackMessages :=
              m.feedbackMessages ++ [⟨.warning, "Balance both arms evenly"⟩] }
        else m
      else m
    let avgElbow : ℚ :=
      if jsTruthy angles.leftElbow && jsTruthy angles.rightElbow then (l + r) / 2
      else if jsTruthy angles.leftElbow then l else r
    match m.state with
    | .down =>
      if avgElbow > ShoulderPressStateMachine.thresholds.upElbowAngle then
        { m with state := .up }
      else m
    | .up =>
      if avgElbow < ShoulderPressStateMachine.thresholds.downElbowAngle then
        { m with repCount := m.repCount + 1
                 feedbackMessages := m.feedbackMessages ++ [⟨.success, "Good rep!"⟩]
                 state := .down }
      else m

def ShoulderPressStateMachine.reset (m : ShoulderPressStateMachine) :
    ShoulderPressStateMachine :=
  { m with repCount := 0, state := .down }

def ShoulderPressStateMachine.run (m : ShoulderPressStateMachine)
    (l : List ShoulderPressAngles) : ShoulderPressStateMachine :=
  l.foldl ShoulderPressStateMachine.update m

-- ==============================================
-- LATERAL RAISE STATE MACHINE  (part_004 lines 516-573)
-- ==============================================

/-- Phases of the lateral raise machine. -/
inductive LateralRaisePhase
  | down
  | raising
  | top
  | lowering
deriving DecidableEq, Repr

structure LateralRaiseStateMachine where
  state : LateralRaisePhase
  repCount : ℕ
  feedbackMessages : List Msg
deriving DecidableEq, Repr

structure LateralRaiseThresholds where
  downAngle : ℚ
  raisingAngle : ℚ
  topAngle : ℚ
  loweringAngle : ℚ
deriving DecidableEq, Repr

def LateralRaiseStateMachine.thresholds : LateralRaiseThresholds :=
  { downAngle := 30, raisingAngle := 60, topAngle := 90, loweringAngle := 60 }

def LateralRaiseStateMachine.init : LateralRaiseStateMachine :=
  { state := .down, repCount := 0, feedbackMessages := [] }

/-- The `angles` argument of the lateral raise update: only `shoulder` is read. -/
structure ShoulderAngles where
  shoulder : Option ℚ
deriving DecidableEq, Repr

/-- `LateralRaiseStateMachine.update` (part_004 lines 530-567). -/
def LateralRaiseStateMachine.update (m : LateralRaiseStateMachine)
    (angles : ShoulderAngles) : LateralRaiseStateMachine :=
  match angles.shoulder with
  | none => { m with feedbackMessages := [⟨.warning, "Cannot detect pose"⟩] }
  | some shoulder =>
    if shoulder = 0 then
      { m with feedbackMessages := [⟨.warning, "Cannot detect pose"⟩] }
    else
      let m := { m with feedbackMessages := [] }
      match m.state with
      | .down =>
        if shoulder > LateralRaiseStateMachine.thresholds.raisingAngle then
          { m with state := .raising }
        else m
      | .raising =>
        if shoulder > LateralRaiseStateMachine.thresholds.topAngle then
          { m with state := .top }
        else m
      | .top =>
        if shoulder < LateralRaiseStateMachine.thresholds.topAngle - 10 then
          { m with state := .lowering }
        else m
      | .lowering =>
        if shoulder < LateralRaiseStateMachine.thresholds.downAngle then
          { m with repCount := m.repCount + 1
                   feedbackMessages := m.feedbackMessages ++ [⟨.success, "Good rep!"⟩]
                   state := .down }
        else m

def LateralRaiseStateMachine.reset (m : LateralRaiseStateMachine) :
    LateralRaiseStateMachine :=
  { m with repCount := 0, state := .down }

def LateralRaiseStateMachine.run (m : LateralRaiseStateMachine)
    (l : List ShoulderAngles) : LateralRaiseStateMachine :=
  l.foldl LateralRaiseStateMachine.update m

-- ==============================================
-- LUNGE STATE MACHINE  (part_004 lines 579-636)
-- ==============================================

/-- Phases of the lunge machine. -/
inductive LungePhase
  | standing
  | descending
  | bottom
  | ascending
deriving DecidableEq, Repr

structure LungeStateMachine where
  state : LungePhase
  repCount : ℕ
  feedbackMessages : List Msg
deriving DecidableEq, Repr

structure LungeThresholds where
  standingKneeAngle : ℚ
  descendingKneeAngle : ℚ
  bottomKneeAngle : ℚ
  ascendingKneeAngle : ℚ
deriving DecidableEq, Repr

def LungeStateMachine.thresholds : LungeThresholds :=
  { standingKneeAngle := 160, descendingKneeAngle := 120, bottomKneeAngle := 90,
    ascendingKneeAngle := 120 }

def LungeStateMachine.init : LungeStateMachine :=
  { state := .standing, repCount := 0, feedbackMessages := [] }

/-- The `angles` argument of the lunge update: only `knee` is read. -/
structure KneeAngles where
  knee : Option ℚ
deriving DecidableEq, Repr

/-- `LungeStateMachine.update` (part_004 lines 593-630). -/
def LungeStateMachine.update (m : LungeStateMachine) (angles : KneeAngles) :
    LungeStateMachine :=
  match angles.knee with
  | none => { m with feedbackMessages := [⟨.warning, "Cannot detect pose"⟩] }
  | some knee =>
    if knee = 0 then
      { m with feedbackMessages := [⟨.warning, "Cannot detect pose"⟩] }
    else
      let m := { m with feedbackMessages := [] }
      match m.state with
      | .standing =>
        if knee < LungeStateMachine.thresholds.descendingKneeAngle then
          { m with state := .descending }
        else m
      | .descending =>
        if knee < LungeStateMachine.thresholds.bottomKneeAngle then
          { m with state := .bottom }
        else m
      | .bottom =>
        if knee > LungeStateMachine.thresholds.bottomKneeAngle + 10 then
          { m with state := .ascending }
        else m
      | .ascending =>
        if knee > LungeStateMachine.thresholds.standingKneeAngle then
          { m with repCount := m.repCount + 1
                   feedbackMessages := m.feedbackMessages ++ [⟨.success, "Good rep!"⟩]
                   state := .standing }
        else m

def LungeStateMachine.reset (m : LungeStateMachine) : LungeStateMachine :=
  { m with repCount := 0, state := .standing }

def LungeStateMachine.run (m : LungeStateMachine) (l : List KneeAngles) :
    LungeStateMachine :=
  l.foldl LungeStateMachine.update m

-- ==============================================
-- FRAME PROCESSING: updateExerciseState (WorkoutTracker.js lines 420-564)
-- ==============================================

/-- A 2D point `{x, y}` handed to the geometry utilities. -/
structure Point where
  x : ℚ
  y : ℚ
deriving DecidableEq, Repr

/-- A pose keypoint `{x, y, score}` as produced by the MoveNet detector.
`pose.keypoints` is a JavaScript array holding the 17 keypoints at the
numeric MoveNet indices (0 = nose, ..., 5/6 = left/right shoulder,
7/8 = elbows, 9/10 = wrists, 11/12 = hips, 13/14 = knees,
15/16 = ankles). -/
structure Keypoint where
  x : ℚ
  y : ℚ
  score : ℚ
deriving DecidableEq, Repr

/-- A subscript applied to the `keypoints` array: either a numeric array
index or a string property name. -/
inductive KpIndex
  | idx (n : ℕ)
  | name (s : String)
deriving DecidableEq, Repr

/-- The confidence cutoff `minConfidence = 0.3` (every call site uses the
default). -/
def minConfidence : ℚ := 3 / 10

/-- The `getPoint` helper (WorkoutTracker.js lines 429-433):
`keypoints[index]` followed by a confidence check.  The keypoints array
stores keypoint objects only at numeric indices, so subscripting it with
a string name (as the bench/push-up/deadlift cases do) yields
`undefined`, and `getPoint` returns null. -/
def getPoint (keypoints : List Keypoint) : KpIndex → Option Point
  | .idx n =>
    match keypoints.get? n with
    | none => none
    | some kp => if kp.score ≥ minConfidence then some ⟨kp.x, kp.y⟩ else none
  | .name _ => none

/-- Squat case of `updateExerciseState` (lines 442-477): numeric MoveNet
indices with left-first/right-fallback per keypoint; all four of hip,
knee, ankle, shoulder must resolve or no angle is set.  `calculateAngle`
and `calculateVerticalAngle` return a number whenever all arguments are
non-null, so they enter the model as abstract total functions `angleFn`
and `vertFn`.  The squat `distances` are not modelled: `update` never
reads them. -/
def squatFrameAngles (angleFn : Point → Point → Point → ℚ)
    (vertFn : Point → Point → ℚ) (keypoints : List Keypoint) : SquatAngles :=
  let shoulder := (getPoint keypoints (.idx 5)).orElse fun _ => getPoint keypoints (.idx 6)
  let hip := (getPoint keypoints (.idx 11)).orElse fun _ => getPoint keypoints (.idx 12)
  let knee := (getPoint keypoints (.idx 13)).orElse fun _ => getPoint keypoints (.idx 14)
  let ankle := (getPoint keypoints (.idx 15)).orElse fun _ => getPoint keypoints (.idx 16)
  match hip, knee, ankle, shoulder with
  | some h, some k, some a, some s =>
    { knee := some (angleFn h k a), hip := some (angleFn s h k), torsoLean := some (vertFn s h) }
  | _, _, _, _ => { knee := none, hip := none, torsoLean := none }

/-- Bench press / push-up case (lines 479-490): `getPoint` is called with
the string names `left_shoulder`/`right_shoulder` etc., so every lookup
returns null and `angles.elbow` is never assigned. -/
def benchPushupFrameAngles (angleFn : Point → Point → Point → ℚ)
    (keypoints : List Keypoint) : ElbowAngles :=
  let shoulder := (getPoint keypoints (.name "left_shoulder")).orElse
    fun _ => getPoint keypoints (.name "right_shoulder")
  let elbow := (getPoint keypoints (.name "left_elbow")).orElse
    fun _ => getPoint keypoints (.name "right_elbow")
  let wrist := (getPoint keypoints (.name "left_wrist")).orElse
    fun _ => getPoint keypoints (.name "right_wrist")
  match shoulder, elbow, wrist with
  | some s, some e, some w => { elbow := some (angleFn s e w) }
  | _, _, _ => { elbow := none }

/-- Deadlift case (lines 492-504): left-side string names only — no right
fallback — so again every lookup returns null.  The source would also set
`angles.knee` and `angles.backAngle`; the deadlift machine reads only
`hip`, which is all the model keeps. -/
def deadliftFrameAngles (angleFn : Point → Point → Point → ℚ)
    (keypoints : List Keypoint) : HipAngles :=
  let shoulder := getPoint keypoints (.name "left_shoulder")
  let hip := getPoint keypoints (.name "left_hip")
  let knee := getPoint keypoints (.name "left_knee")
  let ankle := getPoint keypoints (.name "left_ankle")
  match shoulder, hip, knee, ankle with
  | some s, some h, some k, some _ => { hip := some (angleFn s h k) }
  | _, _, _, _ => { hip := none }

/-- Pull-up case (lines 506-514): numeric indices with right fallback. -/
def pullupFrameAngles (angleFn : Point → Point → Point → ℚ)
    (keypoints : List Keypoint) : ElbowAngles :=
  let shoulder := (getPoint keypoints (.idx 5)).orElse fun _ => getPoint keypoints (.idx 6)
  let elbow := (getPoint keypoints (.idx 7)).orElse fun _ => getPoint keypoints (.idx 8)
  let wrist := (getPoint keypoints (.idx 9)).orElse fun _ => getPoint keypoints (.idx 10)
  match shoulder, elbow, wrist with
  | some s, some e, some w => { elbow := some (angleFn s e w) }
  | _, _, _ => { elbow := none }

/-- Shoulder press case (lines 516-539): left and right elbow angles are
computed independently from the numeric index triples (5,7,9) and
(6,8,10); each side needs its full triple. -/
def shoulderPressFrameAngles (angleFn : Point → Point → Point → ℚ)
    (keypoints : List Keypoint) : ShoulderPressAngles :=
  let ls := getPoint keypoints (.idx 5)
  let le := getPoint keypoints (.idx 7)
  let lw := getPoint keypoints (.idx 9)
  let rs := getPoint keypoints (.idx 6)
  let re := getPoint keypoints (.idx 8)
  let rw := getPoint keypoints (.idx 10)
  { leftElbow :=
      match ls, le, lw with
      | some a, some b, some c => some (angleFn a b c)
      | _, _, _ => none
    rightElbow :=
      match rs, re, rw with
      | some a, some b, some c => some (angleFn a b c)
      | _, _, _ => none }

/-- Lateral raise case (lines 541-549): numeric indices with right
fallback; the shoulder abduction angle is `angleFn hip shoulder elbow`. -/
def lateralRaiseFrameAngles (angleFn : Point → Point → Point → ℚ)
    (keypoints : List Keypoint) : ShoulderAngles :=
  let shoulder := (getPoint keypoints (.idx 5)).orElse fun _ => getPoint keypoints (.idx 6)
  let elbow := (getPoint keypoints (.idx 7)).orElse fun _ => getPoint keypoints (.idx 8)
  let hip := (getPoint keypoints (.idx 11)).orElse fun _ => getPoint keypoints (.idx 12)
  match shoulder, elbow, hip with
  | some s, some e, some h => { shoulder := some (angleFn h s e) }
  | _, _, _ => { shoulder := none }

/-- Lunge case (lines 551-560): numeric indices with right fallback. -/
def lungeFrameAngles (angleFn : Point → Point → Point → ℚ)
    (keypoints : List Keypoint) : KneeAngles :=
  let hip := (getPoint keypoints (.idx 11)).orElse fun _ => getPoint keypoints (.idx 12)
  let knee := (getPoint keypoints (.idx 13)).orElse fun _ => getPoint keypoints (.idx 14)
  let ankle := (getPoint keypoints (.idx 15)).orElse fun _ => getPoint keypoints (.idx 16)
  match hip, knee, ankle with
  | some h, some k, some a => { knee := some (angleFn h k a) }
  | _, _, _ => { knee := none }

/-- A pose in which all 17 MoveNet keypoints are detected with full
confidence (coordinates are arbitrary distinct values). -/
def fullPose : List Keypoint :=
  [⟨0, 100, 1⟩, ⟨1, 101, 1⟩, ⟨2, 102, 1⟩, ⟨3, 103, 1⟩, ⟨4, 104, 1⟩, ⟨5, 105, 1⟩,
   ⟨6, 106, 1⟩, ⟨7, 107, 1⟩, ⟨8, 108, 1⟩, ⟨9, 109, 1⟩, ⟨10, 110, 1⟩, ⟨11, 111, 1⟩,
   ⟨12, 112, 1⟩, ⟨13, 113, 1⟩, ⟨14, 114, 1⟩, ⟨15, 115, 1⟩, ⟨16, 116, 1⟩]

/-- A pose in which only the right-side keypoints (the even MoveNet
indices 2,4,6,8,10,12,14,16) meet the confidence threshold; the nose and
every left-side keypoint score 0. -/
def rightOnlyPose : List Keypoint :=
  [⟨0, 100, 0⟩, ⟨1, 101, 0⟩, ⟨2, 102, 1⟩, ⟨3, 103, 0⟩, ⟨4, 104, 1⟩, ⟨5, 105, 0⟩,
   ⟨6, 106, 1⟩, ⟨7, 107, 0⟩, ⟨8, 108, 1⟩, ⟨9, 109, 0⟩, ⟨10, 110, 1⟩, ⟨11, 111, 0⟩,
   ⟨12, 112, 1⟩, ⟨13, 113, 0⟩, ⟨14, 114, 1⟩, ⟨15, 115, 0⟩, ⟨16, 116, 1⟩]

-- ==============================================
-- SESSION CONTROLLER  (WorkoutTracker.js lines 604-712)
-- ==============================================

/-- The exercise roster keys of the `EXERCISES` table. -/
inductive Exercise
  | squat
  | bench
  | deadlift
  | pushup
  | pullup
  | shoulderpress
  | lateralraise
  | lunge
deriving DecidableEq, Repr

/-- One `workoutLog` entry `{exercise, reps}` (the display `name` string
is determined by the exercise and omitted). -/
structure LogEntry where
  exercise : Exercise
  reps : ℕ
deriving DecidableEq, Repr

/-- The WorkoutTracker component state relevant to exercise switching and
rep logging.  `spokenFeedback` records the strings passed to
`speakFeedback` (whether they are voiced depends on an external TTS
flag). -/
structure WorkoutTrackerState where
  isCounting : Bool
  currentExercise : Exercise
  repCount : ℕ
  workoutLog : List LogEntry
  currentState : String
  formQuality : String
  spokenFeedback : List String
deriving DecidableEq, Repr

/-- `handleExerciseChange` (lines 604-615): while counting it only speaks
a refusal; otherwise it activates the chosen machine (the machines
themselves are untouched), zeroes the displayed rep count and resets the
displayed state/form strings.  It writes nothing to `workoutLog`. -/
def handleExerciseChange (s : WorkoutTrackerState) (exercise : Exercise) :
    WorkoutTrackerState :=
  if s.isCounting then
    { s with spokenFeedback :=
        s.spokenFeedback ++ ["Please stop counting before changing exercise."] }
  else
    { s with currentExercise := exercise
             repCount := 0
             currentState := "Standing"
             formQuality := "Perfect" }

/-- The log write shared by `handleStopCounting` and `handleEndWorkout`:
the first entry for the exercise gets `reps += repCount`, otherwise a new
entry is appended. -/
def logReps : List LogEntry → Exercise → ℕ → List LogEntry
  | [], exercise, n => [⟨exercise, n⟩]
  | e :: rest, exercise, n =>
    if e.exercise = exercise then { e with reps := e.reps + n } :: rest
    else e :: logReps rest exercise n

/-- `handleStopCounting` (lines 622-639): if counting with a positive rep
count, fold the current reps into the log; then disable counting and
announce the pause.  The displayed `repCount` is not zeroed here. -/
def handleStopCounting (s : WorkoutTrackerState) : WorkoutTrackerState :=
  let s :=
    if s.isCounting ∧ 0 < s.repCount then
      { s with workoutLog := logReps s.workoutLog s.currentExercise s.repCount }
    else s
  { s with isCounting := false
           spokenFeedback := s.spokenFeedback ++ ["Counting paused."] }

/-- Total reps recorded for one exercise in a `workoutLog`. -/
def repsFor (log : List LogEntry) (exercise : Exercise) : ℕ :=
  (log.map fun e => if e.exercise = exercise then e.reps else 0).sum

-- ==============================================
-- CONCRETE INPUTS USED BY THE THEOREMS
-- ==============================================

/-- Squat angle snapshot with every reading missing. -/
def noSquatAngles : SquatAngles := ⟨none, none, none⟩

def elbowOnly (q : ℚ) : ElbowAngles := ⟨some q⟩

def hipOnly (q : ℚ) : HipAngles := ⟨some q⟩

def shoulderOnly (q : ℚ) : ShoulderAngles := ⟨some q⟩

def lungeKneeOnly (q : ℚ) : KneeAngles := ⟨some q⟩

def bothElbows (q : ℚ) : ShoulderPressAngles := ⟨some q, some q⟩

/-- The depth invariant of the squat machine: whenever the phase is
`bottom` or `ascending`, the minimum-depth flag is set. -/
def SquatDepthInv (m : SquatStateMachine) : Prop :=
  (m.state = .bottom ∨ m.state = .ascending) → m.minDepthReached = true

-- ==============================================
-- HELPER LEMMAS
-- ==============================================

lemma squatDepthInv_init : SquatDepthInv SquatStateMachine.init := by
  intro h
  rcases h with h | h <;> simp [SquatStateMachine.init] at h

lemma squatDepthInv_step (m : SquatStateMachine) (a : SquatAngles)
    (h : SquatDepthInv m) : SquatDepthInv (m.update a) := by
  obtain ⟨st, rc, fb, md⟩ := m
  obtain ⟨k, hip, t⟩ := a
  rcases k with _ | q
  · exact h
  · rcases st <;>
      simp only [SquatStateMachine.update, SquatDepthInv, SquatStateMachine.thresholds] at h ⊢ <;>
      split_ifs with h1 h2 <;>
      (try simp_all) <;> linarith

lemma squatDepthInv_run (m : SquatStateMachine) (h : SquatDepthInv m)
    (l : List SquatAngles) : SquatDepthInv (m.run l) := by
  induction l generalizing m with
  | nil => exact h
  | cons x xs ih => exact ih _ (squatDepthInv_step m x h)

/-- The only `update` branch that emits "Too shallow" is the
ascending-phase completion with the depth flag unset. -/
lemma squat_tooShallow_source (m : SquatStateMachine) (a : SquatAngles)
    (hmem : (⟨.error, "Too shallow"⟩ : Msg) ∈ (m.update a).feedbackMessages) :
    m.state = .ascending ∧ m.minDepthReached = false := by
  obtain ⟨st, rc, fb, md⟩ := m
  obtain ⟨k, hip, t⟩ := a
  rcases k with _ | q
  · simp [SquatStateMachine.update] at hmem
  · rcases st <;>
      simp only [SquatStateMachine.update] at hmem ⊢ <;>
      split_ifs at hmem <;> simp_all

/-- An update that moves the squat machine from `ascending` to `standing`
with the depth flag set increments the rep counter. -/
lemma squat_ascending_completes (m : SquatStateMachine) (a : SquatAngles)
    (h1 : m.state = .ascending) (hmd : m.minDepthReached = true)
    (h2 : (m.update a).state = .standing) :
    (m.update a).repCount = m.repCount + 1 := by
  obtain ⟨st, rc, fb, md⟩ := m
  obtain ⟨k, hip, t⟩ := a
  rcases k with _ | q
  · simp_all [SquatStateMachine.update]
  · rcases st <;>
      simp only [SquatStateMachine.update] at h1 h2 ⊢ <;>
      split_ifs at h2 ⊢ <;> simp_all

lemma repsFor_nil (ex : Exercise) : repsFor [] ex = 0 := rfl

lemma repsFor_cons (e : LogEntry) (rest : List LogEntry) (ex : Exercise) :
    repsFor (e :: rest) ex = (if e.exercise = ex then e.reps else 0) + repsFor rest ex := by
  simp [repsFor]

lemma repsFor_logReps_same (log : List LogEntry) (ex : Exercise) (n : ℕ) :
    repsFor (logReps log ex n) ex = repsFor log ex + n := by
  induction log with
  | nil => simp [logReps, repsFor_cons, repsFor_nil]
  | cons e rest ih =>
    by_cases h : e.exercise = ex
    · rw [logReps, if_pos h, repsFor_cons, repsFor_cons, if_pos h, if_pos h]
      ring
    · rw [logReps, if_neg h, repsFor_cons, repsFor_cons, if_neg h, ih]
      ring

lemma repsFor_logReps_other (log : List LogEntry) (ex ex' : Exercise)
    (h : ex' ≠ ex) (n : ℕ) :
    repsFor (logReps log ex n) ex' = repsFor log ex' := by
  induction log with
  | nil => simp [logReps, repsFor_cons, repsFor_nil, Ne.symm h]
  | cons e rest ih =>
    by_cases he : e.exercise = ex
    · subst he
      simp [logReps, repsFor_cons, Ne.symm h]
    · simp [logReps, he, repsFor_cons, ih]

-- ==============================================
-- CLAIM THEOREMS
-- ==============================================

/-- C1 (counterexample): the spec's squat threshold sequence
knee = 170, 140, 100, 115, 170 does NOT increment `repCount` and does NOT
return the machine to `standing`: at 115° the bottom-exit guard requires
knee > 110 + 15 = 125, so the machine is still in `bottom` when the final
170° arrives and ends in `ascending` with `repCount = 0`. -/
theorem C1_spec_sequence_fails :
    SquatStateMachine.init.run
        [kneeOnly 170, kneeOnly 140, kneeOnly 100, kneeOnly 115, kneeOnly 170] =
      { state := .ascending, repCount := 0, feedbackMessages := [],
        minDepthReached := true }
  ∧ ¬ ((SquatStateMachine.init.run
          [kneeOnly 170, kneeOnly 140, kneeOnly 100, kneeOnly 115, kneeOnly 170]).repCount =
        SquatStateMachine.init.repCount + 1
      ∧ (SquatStateMachine.init.run
          [kneeOnly 170, kneeOnly 140, kneeOnly 100, kneeOnly 115, kneeOnly 170]).state =
        SquatPhase.standing) := by
  have h : SquatStateMachine.init.run
      [kneeOnly 170, kneeOnly 140, kneeOnly 100, kneeOnly 115, kneeOnly 170] =
      { state := .ascending, repCount := 0, feedbackMessages := [],
        minDepthReached := true } := by
    norm_num [SquatStateMachine.run, List.foldl, SquatStateMachine.update, kneeOnly,
      SquatStateMachine.init, SquatStateMachine.thresholds]
  refine ⟨h, ?_⟩
  rw [h]
  simp [SquatStateMachine.init]

/-- C1 (amended): for every one of the eight exercise machines, driving a
fresh machine through its full threshold sequence in order — with every
intermediate reading actually clearing its guard, so the squat ascent
step must exceed 125° (110+15), e.g. 170, 140, 100, 130, 170 — increments
`repCount` by exactly 1 and returns `phase` to the initial state. -/
theorem C1_full_threshold_cycle_counts_one_rep :
    (SquatStateMachine.init.run
        [kneeOnly 170, kneeOnly 140, kneeOnly 100, kneeOnly 130, kneeOnly 170]).repCount = 1
  ∧ (SquatStateMachine.init.run
        [kneeOnly 170, kneeOnly 140, kneeOnly 100, kneeOnly 130, kneeOnly 170]).state =
      SquatPhase.standing
  ∧ (BenchPressStateMachine.init.run
        [elbowOnly 170, elbowOnly 110, elbowOnly 85, elbowOnly 105, elbowOnly 165]).repCount = 1
  ∧ (BenchPressStateMachine.init.run
        [elbowOnly 170, elbowOnly 110, elbowOnly 85, elbowOnly 105, elbowOnly 165]).state =
      BenchPhase.extended
  ∧ (DeadliftStateMachine.init.run
        [hipOnly 170, hipOnly 110, hipOnly 85, hipOnly 105, hipOnly 165]).repCount = 1
  ∧ (DeadliftStateMachine.init.run
        [hipOnly 170, hipOnly 110, hipOnly 85, hipOnly 105, hipOnly 165]).state =
      DeadliftPhase.standing
  ∧ (PushUpStateMachine.init.run
        [elbowOnly 170, elbowOnly 110, elbowOnly 85, elbowOnly 105, elbowOnly 165]).repCount = 1
  ∧ (PushUpStateMachine.init.run
        [elbowOnly 170, elbowOnly 110, elbowOnly 85, elbowOnly 105, elbowOnly 165]).state =
      PushUpPhase.up
  ∧ (PullUpStateMachine.init.run
        [elbowOnly 170, elbowOnly 110, elbowOnly 85, elbowOnly 105, elbowOnly 165]).repCount = 1
  ∧ (PullUpStateMachine.init.run
        [elbowOnly 170, elbowOnly 110, elbowOnly 85, elbowOnly 105, elbowOnly 165]).state =
      PullUpPhase.hanging
  ∧ (ShoulderPressStateMachine.init.run [bothElbows 170, bothElbows 90]).repCount = 1
  ∧ (ShoulderPressStateMachine.init.run [bothElbows 170, bothElbows 90]).state =
      ShoulderPressPhase.down
  ∧ (LateralRaiseStateMachine.init.run
        [shoulderOnly 20, shoulderOnly 70, shoulderOnly 95, shoulderOnly 75,
         shoulderOnly 20]).repCount = 1
  ∧ (LateralRaiseStateMachine.init.run
        [shoulderOnly 20, shoulderOnly 70, shoulderOnly 95, shoulderOnly 75,
         shoulderOnly 20]).state = LateralRaisePhase.down
  ∧ (LungeStateMachine.init.run
        [lungeKneeOnly 165, lungeKneeOnly 110, lungeKneeOnly 85, lungeKneeOnly 105,
         lungeKneeOnly 165]).repCount = 1
  ∧ (LungeStateMachine.init.run
        [lungeKneeOnly 165, lungeKneeOnly 110, lungeKneeOnly 85, lungeKneeOnly 105,
         lungeKneeOnly 165]).state = LungePhase.standing := by
  norm_num [SquatStateMachine.run, SquatStateMachine.update, SquatStateMachine.init,
    SquatStateMachine.thresholds, kneeOnly,
    BenchPressStateMachine.run, BenchPressStateMachine.update, BenchPressStateMachine.init,
    BenchPressStateMachine.thresholds, elbowOnly,
    DeadliftStateMachine.run, DeadliftStateMachine.update, DeadliftStateMachine.init,
    DeadliftStateMachine.thresholds, hipOnly,
    PushUpStateMachine.run, PushUpStateMachine.update, PushUpStateMachine.init,
    PushUpStateMachine.thresholds,
    PullUpStateMachine.run, PullUpStateMachine.update, PullUpStateMachine.init,
    PullUpStateMachine.thresholds,
    ShoulderPressStateMachine.run, ShoulderPressStateMachine.update,
    ShoulderPressStateMachine.init, ShoulderPressStateMachine.thresholds, bothElbows, jsTruthy,
    LateralRaiseStateMachine.run, LateralRaiseStateMachine.update, LateralRaiseStateMachine.init,
    LateralRaiseStateMachine.thresholds, shoulderOnly,
    LungeStateMachine.run, LungeStateMachine.update, LungeStateMachine.init,
    LungeStateMachine.thresholds, lungeKneeOnly,
    List.foldl]

/-- C2 (counterexample): the shoulder press machine's missing-signal
warning reads "Face camera - ensure arms visible"; it does not contain
the words "cannot detect" (even ignoring case), so the claim that all
eight machines set a "cannot detect" warning is false. -/
theorem C2_shoulder_press_warning_not_cannot_detect :
    (ShoulderPressStateMachine.init.update ⟨none, none⟩).feedbackMessages =
      [⟨.warning, "Face camera - ensure arms visible"⟩]
  ∧ containsCI "cannot detect" "Face camera - ensure arms visible" = false := by
  exact ⟨rfl, by decide⟩

/-- C2 (amended): for every one of the eight machines, in every state,
an update whose driving angle(s) are null leaves `phase` and `repCount`
unchanged and replaces `feedbackMessages` (whatever it held) with exactly
one warning-severity missing-signal message.  For seven machines that
message contains "cannot detect" (ignoring case); the shoulder press
machine instead says "Face camera - ensure arms visible". -/
theorem C2_missing_driving_angle_freezes_state :
    (∀ (m : SquatStateMachine) (hip torsoLean : Option ℚ),
        (m.update ⟨none, hip, torsoLean⟩).state = m.state
      ∧ (m.update ⟨none, hip, torsoLean⟩).repCount = m.repCount
      ∧ (m.update ⟨none, hip, torsoLean⟩).feedbackMessages =
          [⟨.warning, "Cannot detect legs"⟩])
  ∧ (∀ m : BenchPressStateMachine,
        (m.update ⟨none⟩).state = m.state
      ∧ (m.update ⟨none⟩).repCount = m.repCount
      ∧ (m.update ⟨none⟩).feedbackMessages = [⟨.warning, "Cannot detect pose"⟩])
  ∧ (∀ m : DeadliftStateMachine,
        (m.update ⟨none⟩).state = m.state
      ∧ (m.update ⟨none⟩).repCount = m.repCount
      ∧ (m.update ⟨none⟩).feedbackMessages = [⟨.warning, "Cannot detect pose"⟩])
  ∧ (∀ m : PushUpStateMachine,
        (m.update ⟨none⟩).state = m.state
      ∧ (m.update ⟨none⟩).repCount = m.repCount
      ∧ (m.update ⟨none⟩).feedbackMessages = [⟨.warning, "Cannot detect pose"⟩])
  ∧ (∀ m : PullUpStateMachine,
        (m.update ⟨none⟩).state = m.state
      ∧ (m.update ⟨none⟩).repCount = m.repCount
      ∧ (m.update ⟨none⟩).feedbackMessages = [⟨.warning, "Cannot detect pose"⟩])
  ∧ (∀ m : ShoulderPressStateMachine,
        (m.update ⟨none, none⟩).state = m.state
      ∧ (m.update ⟨none, none⟩).repCount = m.repCount
      ∧ (m.update ⟨none, none⟩).feedbackMessages =
          [⟨.warning, "Face camera - ensure arms visible"⟩])
  ∧ (∀ m : LateralRaiseStateMachine,
        (m.update ⟨none⟩).state = m.state
      ∧ (m.update ⟨none⟩).repCount = m.repCount
      ∧ (m.update ⟨none⟩).feedbackMessages = [⟨.warning, "Cannot detect pose"⟩])
  ∧ (∀ m : LungeStateMachine,
        (m.update ⟨none⟩).state = m.state
      ∧ (m.update ⟨none⟩).repCount = m.repCount
      ∧ (m.update ⟨none⟩).feedbackMessages = [⟨.warning, "Cannot detect pose"⟩])
  ∧ containsCI "cannot detect" "Cannot detect legs" = true
  ∧ containsCI "cannot detect" "Cannot detect pose" = true := by
  refine ⟨fun m hip t => ⟨rfl, rfl, rfl⟩, fun m => ⟨rfl, rfl, rfl⟩, fun m => ⟨rfl, rfl, rfl⟩,
    fun m => ⟨rfl, rfl, rfl⟩, fun m => ⟨rfl, rfl, rfl⟩, fun m => ⟨rfl, rfl, rfl⟩,
    fun m => ⟨rfl, rfl, rfl⟩, fun m => ⟨rfl, rfl, rfl⟩, by decide, by decide⟩

/-- C3: for every one of the eight machines, in every state and for every
angle input, a single `update` call leaves `repCount` unchanged or
increments it by exactly 1; it never decreases and never jumps by more
than 1. -/
theorem C3_repCount_delta_at_most_one :
    (∀ (m : SquatStateMachine) (a : SquatAngles),
        (m.update a).repCount = m.repCount ∨ (m.update a).repCount = m.repCount + 1)
  ∧ (∀ (m : BenchPressStateMachine) (a : ElbowAngles),
        (m.update a).repCount = m.repCount ∨ (m.update a).repCount = m.repCount + 1)
  ∧ (∀ (m : DeadliftStateMachine) (a : HipAngles),
        (m.update a).repCount = m.repCount ∨ (m.update a).repCount = m.repCount + 1)
  ∧ (∀ (m : PushUpStateMachine) (a : ElbowAngles),
        (m.update a).repCount = m.repCount ∨ (m.update a).repCount = m.repCount + 1)
  ∧ (∀ (m : PullUpStateMachine) (a : ElbowAngles),
        (m.update a).repCount = m.repCount ∨ (m.update a).repCount = m.repCount + 1)
  ∧ (∀ (m : ShoulderPressStateMachine) (a : ShoulderPressAngles),
        (m.update a).repCount = m.repCount ∨ (m.update a).repCount = m.repCount + 1)
  ∧ (∀ (m : LateralRaiseStateMachine) (a : ShoulderAngles),
        (m.update a).repCount = m.repCount ∨ (m.update a).repCount = m.repCount + 1)
  ∧ (∀ (m : LungeStateMachine) (a : KneeAngles),
        (m.update a).repCount = m.repCount ∨ (m.update a).repCount = m.repCount + 1) := by
  refine ⟨?_, ?_, ?_, ?_, ?_, ?_, ?_, ?_⟩
  · intro m a
    obtain ⟨st, rc, fb, md⟩ := m
    obtain ⟨k, hip, t⟩ := a
    rcases k with _ | q
    · exact Or.inl rfl
    · rcases st <;>
        simp only [SquatStateMachine.update] <;>
        split_ifs <;> simp
  · intro m a
    obtain ⟨st, rc, fb⟩ := m
    obtain ⟨e⟩ := a
    rcases e with _ | q
    · exact Or.inl rfl
    · rcases st <;>
        simp only [BenchPressStateMachine.update] <;>
        split_ifs <;> simp
  · intro m a
    obtain ⟨st, rc, fb⟩ := m
    obtain ⟨e⟩ := a
    rcases e with _ | q
    · exact Or.inl rfl
    · rcases st <;>
        simp only [DeadliftStateMachine.update] <;>
        split_ifs <;> simp
  · intro m a
    obtain ⟨st, rc, fb⟩ := m
    obtain ⟨e⟩ := a
    rcases e with _ | q
    · exact Or.inl rfl
    · rcases st <;>
        simp only [PushUpStateMachine.update] <;>
        split_ifs <;> simp
  · intro m a
    obtain ⟨st, rc, fb⟩ := m
    obtain ⟨e⟩ := a
    rcases e with _ | q
    · exact Or.inl rfl
    · rcases st <;>
        simp only [PullUpStateMachine.update] <;>
        split_ifs <;> simp
  · intro m a
    obtain ⟨st, rc, fb⟩ := m
    obtain ⟨le, re⟩ := a
    rcases st <;>
      simp only [ShoulderPressStateMachine.update] <;>
      split_ifs <;> simp
  · intro m a
    obtain ⟨st, rc, fb⟩ := m
    obtain ⟨e⟩ := a
    rcases e with _ | q
    · exact Or.inl rfl
    · rcases st <;>
        simp only [LateralRaiseStateMachine.update] <;>
        split_ifs <;> simp
  · intro m a
    obtain ⟨st, rc, fb⟩ := m
    obtain ⟨e⟩ := a
    rcases e with _ | q
    · exact Or.inl rfl
    · rcases st <;>
        simp only [LungeStateMachine.update] <;>
        split_ifs <;> simp

/-- C4: every squat state reachable from the initial state whose phase is
`bottom` or `ascending` has the minimum-depth flag set (entering `bottom`
requires knee < 110, and the same update first runs the knee < 130 depth
check); consequently no update from a reachable state ever emits the
"Too shallow" rejection, and every update that completes a cycle from
`ascending` back to `standing` increments `repCount`. -/
theorem C4_squat_depth_invariant :
    (∀ l : List SquatAngles,
        ((SquatStateMachine.init.run l).state = .bottom ∨
         (SquatStateMachine.init.run l).state = .ascending) →
        (SquatStateMachine.init.run l).minDepthReached = true)
  ∧ (∀ (l : List SquatAngles) (a : SquatAngles),
        (⟨.error, "Too shallow"⟩ : Msg) ∉
          ((SquatStateMachine.init.run l).update a).feedbackMessages)
  ∧ (∀ (l : List SquatAngles) (a : SquatAngles),
        (SquatStateMachine.init.run l).state = .ascending →
        ((SquatStateMachine.init.run l).update a).state = .standing →
        ((SquatStateMachine.init.run l).update a).repCount =
          (SquatStateMachine.init.run l).repCount + 1) := by
  refine ⟨?_, ?_, ?_⟩
  · exact fun l => squatDepthInv_run _ squatDepthInv_init l
  · intro l a hmem
    have h2 := squat_tooShallow_source _ a hmem
    have h3 := squatDepthInv_run _ squatDepthInv_init l (Or.inr h2.1)
    rw [h2.2] at h3
    exact Bool.false_ne_true h3
  · intro l a h1 h2
    exact squat_ascending_completes _ a h1
      (squatDepthInv_run _ squatDepthInv_init l (Or.inr h1)) h2

/-- C4 (witness): concrete instances — after knee 140, 100 the machine is
in `bottom` with the depth flag set, and after knee 140, 100, 130 an
update with knee 170 completes the cycle and increments `repCount`. -/
theorem C4_squat_depth_invariant_witness :
    (SquatStateMachine.init.run [kneeOnly 140, kneeOnly 100]).minDepthReached = true
  ∧ ((SquatStateMachine.init.run [kneeOnly 140, kneeOnly 100, kneeOnly 130]).update
        (kneeOnly 170)).repCount =
      (SquatStateMachine.init.run [kneeOnly 140, kneeOnly 100, kneeOnly 130]).repCount + 1 := by
  constructor
  · exact C4_squat_depth_invariant.1 [kneeOnly 140, kneeOnly 100]
      (Or.inl (by norm_num [SquatStateMachine.run, List.foldl, SquatStateMachine.update,
        kneeOnly, SquatStateMachine.init, SquatStateMachine.thresholds]))
  · exact C4_squat_depth_invariant.2.2 [kneeOnly 140, kneeOnly 100, kneeOnly 130]
      (kneeOnly 170)
      (by norm_num [SquatStateMachine.run, List.foldl, SquatStateMachine.update,
        kneeOnly, SquatStateMachine.init, SquatStateMachine.thresholds])
      (by norm_num [SquatStateMachine.run, List.foldl, SquatStateMachine.update,
        kneeOnly, SquatStateMachine.init, SquatStateMachine.thresholds])

/-- C5 (counterexample): driving the fresh squat machine with knee
170, 140, 125, 170 does NOT complete a cycle: 125 < 130 actually sets the
depth flag (the spec's "not < 130" is arithmetically wrong), 125 is not
below the 110° bottom threshold, and from `descending` there is no
transition back to `standing`, so the machine ends in `descending` with
`repCount = 0` and no "Too shallow" feedback is ever emitted. -/
theorem C5_shallow_cycle_claim_false :
    SquatStateMachine.init.run [kneeOnly 170, kneeOnly 140, kneeOnly 125, kneeOnly 170] =
      { state := .descending, repCount := 0, feedbackMessages := [],
        minDepthReached := true }
  ∧ ¬ ((SquatStateMachine.init.run
          [kneeOnly 170, kneeOnly 140, kneeOnly 125, kneeOnly 170]).state =
        SquatPhase.standing)
  ∧ (⟨.error, "Too shallow"⟩ : Msg) ∉
      (SquatStateMachine.init.run
        [kneeOnly 170, kneeOnly 140, kneeOnly 125, kneeOnly 170]).feedbackMessages := by
  have h : SquatStateMachine.init.run
      [kneeOnly 170, kneeOnly 140, kneeOnly 125, kneeOnly 170] =
      { state := .descending, repCount := 0, feedbackMessages := [],
        minDepthReached := true } := by
    norm_num [SquatStateMachine.run, List.foldl, SquatStateMachine.update, kneeOnly,
      SquatStateMachine.init, SquatStateMachine.thresholds]
  refine ⟨h, ?_, ?_⟩ <;> rw [h] <;> simp

/-- C5 (amended): the sequence knee 170, 140, 125, 170 never leaves the
descent: 125° sets the depth flag (it is below the 130° depth threshold)
but does not reach `bottom` (not below 110°), and the final 170° does not
move the machine out of `descending`; `repCount` stays 0, no feedback is
emitted on the final call, and no prefix of the sequence emits a
"Too shallow" entry. -/
theorem C5_shallow_sequence_stays_descending :
    SquatStateMachine.init.run [kneeOnly 170, kneeOnly 140, kneeOnly 125, kneeOnly 170] =
      { state := .descending, repCount := 0, feedbackMessages := [],
        minDepthReached := true }
  ∧ (∀ pre ∈ [[kneeOnly 170], [kneeOnly 170, kneeOnly 140],
       [kneeOnly 170, kneeOnly 140, kneeOnly 125],
       [kneeOnly 170, kneeOnly 140, kneeOnly 125, kneeOnly 170]],
      (⟨.error, "Too shallow"⟩ : Msg) ∉ (SquatStateMachine.init.run pre).feedbackMessages) := by
  constructor
  · norm_num [SquatStateMachine.run, List.foldl, SquatStateMachine.update, kneeOnly,
      SquatStateMachine.init, SquatStateMachine.thresholds]
  · intro pre hpre
    simp only [List.mem_cons, List.not_mem_nil, or_false] at hpre
    rcases hpre with h | h | h | h <;> subst h <;>
      norm_num [SquatStateMachine.run, List.foldl, SquatStateMachine.update, kneeOnly,
        SquatStateMachine.init, SquatStateMachine.thresholds]

/-- C6: the per-frame AngleSet computation.  For the bench press/push-up
and deadlift cases `getPoint` is called with string keypoint names, but
the keypoints array is indexed by the numeric MoveNet indices, so the
lookups all return null and no driving angle is ever produced — even for
a pose with every keypoint at full confidence (and the deadlift case
consults only left-side names, with no right-side fallback at all).  For
the squat, pull-up, shoulder press, lateral raise and lunge cases, which
use numeric indices with a left-first/right-fallback per keypoint, a pose
in which only right-side keypoints meet the 0.3 threshold still yields
the driving angle(s). -/
theorem C6_frame_angles_string_indexing (angleFn : Point → Point → Point → ℚ)
    (vertFn : Point → Point → ℚ) :
    (benchPushupFrameAngles angleFn fullPose).elbow = none
  ∧ (deadliftFrameAngles angleFn fullPose).hip = none
  ∧ (benchPushupFrameAngles angleFn rightOnlyPose).elbow = none
  ∧ (deadliftFrameAngles angleFn rightOnlyPose).hip = none
  ∧ ((squatFrameAngles angleFn vertFn rightOnlyPose).knee).isSome = true
  ∧ ((pullupFrameAngles angleFn rightOnlyPose).elbow).isSome = true
  ∧ ((shoulderPressFrameAngles angleFn rightOnlyPose).rightElbow).isSome = true
  ∧ (shoulderPressFrameAngles angleFn rightOnlyPose).leftElbow = none
  ∧ ((lateralRaiseFrameAngles angleFn rightOnlyPose).shoulder).isSome = true
  ∧ ((lungeFrameAngles angleFn rightOnlyPose).knee).isSome = true := by
  refine ⟨rfl, rfl, rfl, rfl, ?_, ?_, ?_, ?_, ?_, ?_⟩ <;>
    norm_num [squatFrameAngles, pullupFrameAngles, shoulderPressFrameAngles,
      lateralRaiseFrameAngles, lungeFrameAngles, getPoint, rightOnlyPose, minConfidence,
      Option.orElse]

/-- C7 (counterexample): with counting disabled, a displayed rep count of
5 for the active squat and an empty session log, switching to push-up
activates the new exercise but writes nothing to the log — the outgoing
squat reps are not persisted by the switch. -/
theorem C7_switch_persists_nothing :
    (handleExerciseChange ⟨false, .squat, 5, [], "Standing", "Perfect", []⟩
        .pushup).workoutLog = []
  ∧ (handleExerciseChange ⟨false, .squat, 5, [], "Standing", "Perfect", []⟩
        .pushup).currentExercise = .pushup
  ∧ (⟨false, .squat, 5, [], "Standing", "Perfect", []⟩ : WorkoutTrackerState).repCount = 5 := by
  exact ⟨rfl, rfl, rfl⟩

/-- C7 (amended): switching while counting is enabled is rejected — the
only effect is the spoken "Please stop counting before changing
exercise." — and switching while counting is disabled activates the new
exercise and zeroes the displayed rep count but performs no SessionLog
write; the outgoing reps are instead persisted (summed with any prior
entry for that kind, other kinds untouched) by `handleStopCounting` when
counting stops with a positive rep count. -/
theorem C7_switch_and_stop_behavior :
    (∀ (s : WorkoutTrackerState) (ex : Exercise), s.isCounting = true →
        handleExerciseChange s ex =
          { s with spokenFeedback :=
              s.spokenFeedback ++ ["Please stop counting before changing exercise."] })
  ∧ (∀ (s : WorkoutTrackerState) (ex : Exercise), s.isCounting = false →
        (handleExerciseChange s ex).workoutLog = s.workoutLog
      ∧ (handleExerciseChange s ex).currentExercise = ex
      ∧ (handleExerciseChange s ex).repCount = 0)
  ∧ (∀ s : WorkoutTrackerState, s.isCounting = true → 0 < s.repCount →
        repsFor (handleStopCounting s).workoutLog s.currentExercise =
          repsFor s.workoutLog s.currentExercise + s.repCount
      ∧ (∀ ex : Exercise, ex ≠ s.currentExercise →
          repsFor (handleStopCounting s).workoutLog ex = repsFor s.workoutLog ex)
      ∧ (handleStopCounting s).isCounting = false) := by
  refine ⟨?_, ?_, ?_⟩
  · intro s ex h
    simp [handleExerciseChange, h]
  · intro s ex h
    refine ⟨?_, ?_, ?_⟩ <;> simp [handleExerciseChange, h]
  · intro s h hr
    refine ⟨?_, ?_, ?_⟩
    · simp [handleStopCounting, h, hr, repsFor_logReps_same]
    · intro ex hex
      simp [handleStopCounting, h, hr, repsFor_logReps_other _ _ _ hex]
    · simp [handleStopCounting, h, hr]

/-- C7 (witness): concrete instances of all three parts — a rejected
switch while counting, a log-preserving switch while paused, and a stop
that sums 4 reps into the existing squat entry. -/
theorem C7_switch_and_stop_behavior_witness :
    handleExerciseChange ⟨true, .squat, 5, [], "Standing", "Perfect", []⟩ .pushup =
      ⟨true, .squat, 5, [], "Standing", "Perfect",
        ["Please stop counting before changing exercise."]⟩
  ∧ (handleExerciseChange ⟨false, .squat, 5, [⟨.squat, 3⟩], "Standing", "Perfect", []⟩
        .pushup).workoutLog = [⟨.squat, 3⟩]
  ∧ repsFor (handleStopCounting
        ⟨true, .squat, 4, [⟨.squat, 3⟩], "Standing", "Perfect", []⟩).workoutLog .squat =
      repsFor [⟨.squat, 3⟩] .squat + 4 := by
  refine ⟨?_, ?_, ?_⟩
  · exact C7_switch_and_stop_behavior.1 ⟨true, .squat, 5, [], "Standing", "Perfect", []⟩
      .pushup rfl
  · exact (C7_switch_and_stop_behavior.2.1
      ⟨false, .squat, 5, [⟨.squat, 3⟩], "Standing", "Perfect", []⟩ .pushup rfl).1
  · exact (C7_switch_and_stop_behavior.2.2
      ⟨true, .squat, 4, [⟨.squat, 3⟩], "Standing", "Perfect", []⟩ rfl (by decide)).1

/-- C8 (counterexample): `reset()` does not clear `feedbackMessages`, so
after an update that left a warning, `reset` does not yield a machine
identical to a freshly constructed one. -/
theorem C8_reset_keeps_feedback_messages :
    (SquatStateMachine.init.update noSquatAngles).reset ≠ SquatStateMachine.init := by
  decide

/-- C8 (amended): for every machine and every state, `reset()` restores
`repCount` to 0, `phase` to the kind's initial phase and (for squat) the
depth flag to false — agreeing with a freshly constructed machine on all
fields except `feedbackMessages`, which `reset` leaves as the last update
set it. -/
theorem C8_reset_restores_counting_state :
    (∀ m : SquatStateMachine,
        m.reset = { SquatStateMachine.init with feedbackMessages := m.feedbackMessages })
  ∧ (∀ m : BenchPressStateMachine,
        m.reset = { BenchPressStateMachine.init with feedbackMessages := m.feedbackMessages })
  ∧ (∀ m : DeadliftStateMachine,
        m.reset = { DeadliftStateMachine.init with feedbackMessages := m.feedbackMessages })
  ∧ (∀ m : PushUpStateMachine,
        m.reset = { PushUpStateMachine.init with feedbackMessages := m.feedbackMessages })
  ∧ (∀ m : PullUpStateMachine,
        m.reset = { PullUpStateMachine.init with feedbackMessages := m.feedbackMessages })
  ∧ (∀ m : ShoulderPressStateMachine,
        m.reset = { ShoulderPressStateMachine.init with
          feedbackMessages := m.feedbackMessages })
  ∧ (∀ m : LateralRaiseStateMachine,
        m.reset = { LateralRaiseStateMachine.init with
          feedbackMessages := m.feedbackMessages })
  ∧ (∀ m : LungeStateMachine,
        m.reset = { LungeStateMachine.init with feedbackMessages := m.feedbackMessages }) :=
  ⟨fun _ => rfl, fun _ => rfl, fun _ => rfl, fun _ => rfl, fun _ => rfl, fun _ => rfl,
   fun _ => rfl, fun _ => rfl⟩

/-- C9: while the bench press machine is in the `bottom` phase, any
sequence of elbow readings drawn from {95°, 85°} (in particular the
claim's alternation, never exceeding the 90+10 = 100° hysteresis exit)
never moves the machine to `ascending`: the phase stays `bottom` and
`repCount` is unchanged. -/
theorem C9_bench_bottom_hysteresis (l : List ℚ) (hl : ∀ x ∈ l, x = 95 ∨ x = 85)
    (m : BenchPressStateMachine) (hm : m.state = .bottom) :
    (m.run (l.map elbowOnly)).state = .bottom ∧
    (m.run (l.map elbowOnly)).repCount = m.repCount := by
  induction l generalizing m with
  | nil => exact ⟨hm, rfl⟩
  | cons x xs ih =>
    have hstep : (m.update (elbowOnly x)).state = BenchPhase.bottom ∧
        (m.update (elbowOnly x)).repCount = m.repCount := by
      rcases hl x (List.mem_cons_self x xs) with h | h <;> subst h <;>
        constructor <;>
        · unfold BenchPressStateMachine.update
          norm_num [elbowOnly, hm, BenchPressStateMachine.thresholds]
    have hxs : ∀ y ∈ xs, y = 95 ∨ y = 85 := fun y hy => hl y (List.mem_cons_of_mem x hy)
    have hrun := ih hxs (m.update (elbowOnly x)) hstep.1
    simp only [BenchPressStateMachine.run, List.map_cons, List.foldl_cons] at hrun ⊢
    exact ⟨hrun.1, hrun.2.trans hstep.2⟩

/-- C9 (witness): the oscillation 95, 85, 95 applied to a bottom-phase
machine with 3 reps leaves it in `bottom` with 3 reps. -/
theorem C9_bench_bottom_hysteresis_witness :
    ((⟨.bottom, 3, []⟩ : BenchPressStateMachine).run
        ([95, 85, 95].map elbowOnly)).state = BenchPhase.bottom
  ∧ ((⟨.bottom, 3, []⟩ : BenchPressStateMachine).run
        ([95, 85, 95].map elbowOnly)).repCount = 3 := by
  have h := C9_bench_bottom_hysteresis [95, 85, 95] (by decide)
    ⟨.bottom, 3, []⟩ rfl
  exact ⟨h.1, h.2⟩

/-- C10 (counterexample): with both driving elbow angles present but
exactly 0°, the shoulder press machine does freeze as the claim says,
but the single warning it emits reads "Face camera - ensure arms
visible", which does not contain "cannot detect" even ignoring case —
so the claim's universal "'cannot detect' warning emitted" wording is
false for this machine. -/
theorem C10_shoulder_press_zero_angle_warning_text :
    (ShoulderPressStateMachine.init.update ⟨some 0, some 0⟩).feedbackMessages =
      [⟨.warning, "Face camera - ensure arms visible"⟩]
  ∧ (ShoulderPressStateMachine.init.update ⟨some 0, some 0⟩).state =
      ShoulderPressStateMachine.init.state
  ∧ (ShoulderPressStateMachine.init.update ⟨some 0, some 0⟩).repCount =
      ShoulderPressStateMachine.init.repCount
  ∧ containsCI "cannot detect" "Face camera - ensure arms visible" = false := by
  exact ⟨rfl, rfl, rfl, by decide⟩

/-- C10 (amended): for every machine and every state, an update whose
driving angle(s) are present but exactly 0° produces a result identical
to the driving angle(s) being null: the missing-signal guards test
JavaScript truthiness (`!angles.knee` and friends), which conflates 0
with null, so the phase and rep count are frozen and the machine's
missing-signal warning is emitted — "Cannot detect legs" /
"Cannot detect pose" for seven machines, while the shoulder press
instead says "Face camera - ensure arms visible". -/
theorem C10_zero_angle_conflated_with_missing :
    (∀ (m : SquatStateMachine) (hip torsoLean : Option ℚ),
        m.update ⟨some 0, hip, torsoLean⟩ = m.update ⟨none, hip, torsoLean⟩
      ∧ (m.update ⟨some 0, hip, torsoLean⟩).state = m.state
      ∧ (m.update ⟨some 0, hip, torsoLean⟩).repCount = m.repCount
      ∧ (m.update ⟨some 0, hip, torsoLean⟩).feedbackMessages =
          [⟨.warning, "Cannot detect legs"⟩])
  ∧ (∀ m : BenchPressStateMachine,
        m.update ⟨some 0⟩ = m.update ⟨none⟩
      ∧ (m.update ⟨some 0⟩).state = m.state
      ∧ (m.update ⟨some 0⟩).repCount = m.repCount
      ∧ (m.update ⟨some 0⟩).feedbackMessages = [⟨.warning, "Cannot detect pose"⟩])
  ∧ (∀ m : DeadliftStateMachine,
        m.update ⟨some 0⟩ = m.update ⟨none⟩
      ∧ (m.update ⟨some 0⟩).state = m.state
      ∧ (m.update ⟨some 0⟩).repCount = m.repCount
      ∧ (m.update ⟨some 0⟩).feedbackMessages = [⟨.warning, "Cannot detect pose"⟩])
  ∧ (∀ m : PushUpStateMachine,
        m.update ⟨some 0⟩ = m.update ⟨none⟩
      ∧ (m.update ⟨some 0⟩).state = m.state
      ∧ (m.update ⟨some 0⟩).repCount = m.repCount
      ∧ (m.update ⟨some 0⟩).feedbackMessages = [⟨.warning, "Cannot detect pose"⟩])
  ∧ (∀ m : PullUpStateMachine,
        m.update ⟨some 0⟩ = m.update ⟨none⟩
      ∧ (m.update ⟨some 0⟩).state = m.state
      ∧ (m.update ⟨some 0⟩).repCount = m.repCount
      ∧ (m.update ⟨some 0⟩).feedbackMessages = [⟨.warning, "Cannot detect pose"⟩])
  ∧ (∀ m : ShoulderPressStateMachine,
        m.update ⟨some 0, some 0⟩ = m.update ⟨none, none⟩
      ∧ m.update ⟨some 0, none⟩ = m.update ⟨none, none⟩
      ∧ m.update ⟨none, some 0⟩ = m.update ⟨none, none⟩
      ∧ (m.update ⟨some 0, some 0⟩).state = m.state
      ∧ (m.update ⟨some 0, some 0⟩).repCount = m.repCount
      ∧ (m.update ⟨some 0, some 0⟩).feedbackMessages =
          [⟨.warning, "Face camera - ensure arms visible"⟩])
  ∧ (∀ m : LateralRaiseStateMachine,
        m.update ⟨some 0⟩ = m.update ⟨none⟩
      ∧ (m.update ⟨some 0⟩).state = m.state
      ∧ (m.update ⟨some 0⟩).repCount = m.repCount
      ∧ (m.update ⟨some 0⟩).feedbackMessages = [⟨.warning, "Cannot detect pose"⟩])
  ∧ (∀ m : LungeStateMachine,
        m.update ⟨some 0⟩ = m.update ⟨none⟩
      ∧ (m.update ⟨some 0⟩).state = m.state
      ∧ (m.update ⟨some 0⟩).repCount = m.repCount
      ∧ (m.update ⟨some 0⟩).feedbackMessages = [⟨.warning, "Cannot detect pose"⟩]) :=
  ⟨fun _ _ _ => ⟨rfl, rfl, rfl, rfl⟩, fun _ => ⟨rfl, rfl, rfl, rfl⟩,
   fun _ => ⟨rfl, rfl, rfl, rfl⟩, fun _ => ⟨rfl, rfl, rfl, rfl⟩,
   fun _ => ⟨rfl, rfl, rfl, rfl⟩, fun _ => ⟨rfl, rfl, rfl, rfl, rfl, rfl⟩,
   fun _ => ⟨rfl, rfl, rfl, rfl⟩, fun _ => ⟨rfl, rfl, rfl, rfl⟩⟩
